import Mathlib

/-
Verification of the chartgpt request handler and page components.

The repository is a Next.js application.  The file
src/app/api/(apps)/claude/route.ts exports an async POST handler that
1. runs authMiddleware and returns its response when that response has
   status 401;
2. inside a try block: parses the JSON request body, decodes the
   client-supplied tool path with decodeURIComponent, dynamically imports
   three modules from that path (toolConfig, schema, prompt), invokes the
   Claude model with structured output, stores the generation with
   uploadToSupabase, and, exactly when toolConfig.paywall === true, calls
   reduceUserCredits(requestBody.email, toolConfig.credits); it then
   returns status 200 with body JSON.stringify with the slug of the first
   uploaded row;
3. on any throw, the catch block returns status 500 with a JSON body
   whose message is error.message for Error instances and the fixed
   string "An unknown error occurred" otherwise.

The embedding models every external call as a field of an environment
record Env: each fallible step yields Except Thrown.  The handler POST is
a pure function from Env to the final Response paired with the ordered
trace of external effects it performed.  JavaScript values that the route
inspects dynamically (toolConfig.paywall under strict equality with true,
the String(...) coercions) are modelled by the small dynamic type JsVal.

The file src/app/(apps)/gpt/page.tsx is a pure component; it is modelled
by the function Page from the static configuration object to the rendered
section list, together with gptMetadata for the exported metadata object.
-/

namespace ChartGpt

/-- Model of a dynamically typed JavaScript value, rich enough for the
fields the route inspects dynamically: toolConfig.paywall (compared with
strict equality against the boolean true) and the arguments of the
String(...) coercions applied to toolConfig.systemMessage and to the
result of generatePrompt. -/
inductive JsVal where
  | undef
  | boolTrue
  | boolFalse
  | str (s : String)
  | num (n : Int)
deriving DecidableEq

/-- JavaScript String(...) coercion on the modelled values. -/
def jsString : JsVal → String
  | JsVal.undef => "undefined"
  | JsVal.boolTrue => "true"
  | JsVal.boolFalse => "false"
  | JsVal.str s => s
  | JsVal.num n => toString n

/-- JavaScript strict equality of a value with the boolean literal true,
as in the guard toolConfig.paywall === true of the route. -/
def jsStrictEqTrue : JsVal → Bool
  | JsVal.boolTrue => true
  | _ => false

/-- The parsed JSON request body.  The route reads toolPath (the module
path to decode) and email (passed to reduceUserCredits); all remaining
client fields are only forwarded wholesale to generatePrompt and
uploadToSupabase and are collapsed into one opaque field. -/
structure RequestBody where
  toolPath : String
  email : String
  otherFields : String
deriving DecidableEq

/-- One entry of the functionSchema array exported by the per-tool schema
module; its contents are opaque to the route, which only passes
functionSchema[0] to withStructuredOutput. -/
structure FunctionDef where
  payload : String
deriving DecidableEq

/-- The toolConfig object exported by the per-tool toolConfig module, with
the fields the route reads: aiModel, systemMessage, toolPath, paywall and
credits. -/
structure ToolConfig where
  aiModel : String
  systemMessage : JsVal
  toolPath : String
  paywall : JsVal
  credits : Nat
deriving DecidableEq

/-- One row of the array returned by uploadToSupabase; the route reads
only the slug of the first row. -/
structure SupabaseRow where
  slug : String
deriving DecidableEq

/-- A thrown JavaScript value, as discriminated by the catch block: either
an Error instance carrying a message, or any non-Error value. -/
inductive Thrown where
  | errorVal (message : String)
  | nonErrorVal
deriving DecidableEq

/-- The message the catch block extracts from a thrown value: its message
field for an Error instance, the fixed fallback string otherwise. -/
def thrownMessage : Thrown → String
  | Thrown.errorVal m => m
  | Thrown.nonErrorVal => "An unknown error occurred"

/-- Body of an HTTP response produced in this route: the opaque body of
the middleware response, the 200 body JSON.stringify of an object with a
slug field, or the 500 body JSON.stringify of an object with a status
text and a message. -/
inductive RespBody where
  | raw (s : String)
  | slugObj (slug : String)
  | errorObj (statusText : String) (message : String)
deriving DecidableEq

/-- An HTTP response: a status code and a body. -/
structure Response where
  status : Nat
  body : RespBody
deriving DecidableEq

/-- External effects the handler can perform, in the order they are
recorded in the trace: attempting to parse the request body, loading one
dynamic module by path, invoking the model, writing the generation row,
and decrementing credits. -/
inductive Effect where
  | bodyParse
  | moduleLoad (path : String)
  | modelInvoke (aiModel : String) (maxTokens : Nat) (schema : Option FunctionDef)
      (systemMsg : String) (humanMsg : String)
  | dbWrite (body : RequestBody) (data : String) (toolPath : String) (aiModel : String)
  | creditDecrement (email : String) (credits : Nat)
deriving DecidableEq

/-- True exactly on a module-load effect. -/
def isLoad : Effect → Bool
  | Effect.moduleLoad _ => true
  | _ => false

/-- True exactly on a model-invocation effect. -/
def isInvoke : Effect → Bool
  | Effect.modelInvoke _ _ _ _ _ => true
  | _ => false

/-- True exactly on a database-write effect. -/
def isWrite : Effect → Bool
  | Effect.dbWrite _ _ _ _ => true
  | _ => false

/-- True exactly on a credit-decrement effect. -/
def isCredit : Effect → Bool
  | Effect.creditDecrement _ _ => true
  | _ => false

/-- The environment of one request: the outcome of every external call
the handler can make.  Each fallible step yields Except Thrown; auth is
the response of authMiddleware, which always resolves to a response. -/
structure Env where
  auth : Response
  bodyJson : Except Thrown RequestBody
  decodeURIComponent : String → Except Thrown String
  importToolConfig : String → Except Thrown ToolConfig
  importSchema : String → Except Thrown (List FunctionDef)
  importGeneratePrompt : String → Except Thrown (RequestBody → Except Thrown JsVal)
  invoke : String → Nat → Option FunctionDef → String → String → Except Thrown String
  uploadToSupabase : RequestBody → String → String → String → Except Thrown (List SupabaseRow)
  reduceUserCredits : String → Nat → Except Thrown Unit

/-- Module path of the per-tool toolConfig module, from the template
literal in the route. -/
def toolConfigPath (toolPath : String) : String :=
  "@/app/" ++ toolPath ++ "/toolConfig"

/-- Module path of the per-tool schema module. -/
def schemaPath (toolPath : String) : String :=
  "@/app/" ++ toolPath ++ "/schema"

/-- Module path of the per-tool prompt module. -/
def promptPath (toolPath : String) : String :=
  "@/app/" ++ toolPath ++ "/prompt"

/-- Message of the TypeError raised by reading the slug field of
supabaseResponse[0] when the returned array is empty. -/
def slugAccessError : Thrown :=
  Thrown.errorVal "Cannot read properties of undefined"

/-- The body of the try block of the POST handler, translated statement
by statement from src/app/api/(apps)/claude/route.ts: parse the body,
decode the tool path, import the three per-tool modules, compute
functionSchema[0] and generatePrompt(requestBody), invoke the model with
system message String(toolConfig.systemMessage) and human message
String(prompt) at 2000 max tokens, upload the generation, then if
toolConfig.paywall === true reduce credits, and finally build the 200
response from the slug of supabaseResponse[0].  The result is the trace
of effects performed so far paired with either the response or the thrown
value that escapes to the catch block. -/
def tryBlock (env : Env) : List Effect × Except Thrown Response :=
  let t0 : List Effect := [Effect.bodyParse]
  match env.bodyJson with
  | Except.error e => (t0, Except.error e)
  | Except.ok requestBody =>
  match env.decodeURIComponent requestBody.toolPath with
  | Except.error e => (t0, Except.error e)
  | Except.ok toolPath =>
  let t1 := t0 ++ [Effect.moduleLoad (toolConfigPath toolPath)]
  match env.importToolConfig (toolConfigPath toolPath) with
  | Except.error e => (t1, Except.error e)
  | Except.ok toolConfig =>
  let t2 := t1 ++ [Effect.moduleLoad (schemaPath toolPath)]
  match env.importSchema (schemaPath toolPath) with
  | Except.error e => (t2, Except.error e)
  | Except.ok functionSchema =>
  let t3 := t2 ++ [Effect.moduleLoad (promptPath toolPath)]
  match env.importGeneratePrompt (promptPath toolPath) with
  | Except.error e => (t3, Except.error e)
  | Except.ok generatePrompt =>
  let functionCall := functionSchema.head?
  match generatePrompt requestBody with
  | Except.error e => (t3, Except.error e)
  | Except.ok prompt =>
  let systemMsg := jsString toolConfig.systemMessage
  let humanMsg := jsString prompt
  let t4 := t3 ++ [Effect.modelInvoke toolConfig.aiModel 2000 functionCall systemMsg humanMsg]
  match env.invoke toolConfig.aiModel 2000 functionCall systemMsg humanMsg with
  | Except.error e => (t4, Except.error e)
  | Except.ok responseData =>
  let t5 := t4 ++ [Effect.dbWrite requestBody responseData toolConfig.toolPath toolConfig.aiModel]
  match env.uploadToSupabase requestBody responseData toolConfig.toolPath toolConfig.aiModel with
  | Except.error e => (t5, Except.error e)
  | Except.ok supabaseResponse =>
  if jsStrictEqTrue toolConfig.paywall then
    let t6 := t5 ++ [Effect.creditDecrement requestBody.email toolConfig.credits]
    match env.reduceUserCredits requestBody.email toolConfig.credits with
    | Except.error e => (t6, Except.error e)
    | Except.ok _ =>
      match supabaseResponse.head? with
      | none => (t6, Except.error slugAccessError)
      | some row => (t6, Except.ok { status := 200, body := RespBody.slugObj row.slug })
  else
    match supabaseResponse.head? with
    | none => (t5, Except.error slugAccessError)
    | some row => (t5, Except.ok { status := 200, body := RespBody.slugObj row.slug })

/-- The POST handler: return the middleware response unchanged when it
has status 401; otherwise run the try block and map a thrown value to the
500 error response of the catch block.  The second component is the
ordered trace of external effects performed. -/
def POST (env : Env) : Response × List Effect :=
  if env.auth.status = 401 then (env.auth, [])
  else
    match tryBlock env with
    | (t, Except.ok r) => (r, t)
    | (t, Except.error e) =>
        ({ status := 500, body := RespBody.errorObj "Error" (thrownMessage e) }, t)

/-- Static company configuration consumed by the navbar and footer of the
GPT page; the page also reads its theme. -/
structure CompanyConfig where
  theme : String
  name : String
deriving DecidableEq

/-- Static navbar configuration passed to the Navbar component. -/
structure NavbarConfig where
  payload : String
deriving DecidableEq

/-- Static footer configuration passed to the Footer component. -/
structure FooterConfig where
  payload : String
deriving DecidableEq

/-- Static metadata block of the GPT toolConfig object, with the fields
the page exports. -/
structure MetadataConfig where
  title : String
  description : String
  og_image : String
  canonical : String
deriving DecidableEq

/-- The static toolConfig object of the GPT tool, with the fields the
page src/app/(apps)/gpt/page.tsx reads. -/
structure GptToolConfig where
  company : CompanyConfig
  navbarLanding : NavbarConfig
  footerLanding : FooterConfig
  metadata : MetadataConfig
deriving DecidableEq

/-- One marketing section rendered by the GPT page, carrying the
configuration objects the page passes to it. -/
inductive PageSection where
  | navbar (companyConfig : CompanyConfig) (navbarConfig : NavbarConfig)
  | hero
  | how
  | pricing
  | testimonials
  | cta
  | faq
  | footer (companyConfig : CompanyConfig) (footerConfig : FooterConfig)
deriving DecidableEq

/-- The kind of a rendered section, forgetting the configuration it was
given. -/
inductive SectionKind where
  | navbar | hero | how | pricing | testimonials | cta | faq | footer
deriving DecidableEq

/-- Kind of a section. -/
def sectionKind : PageSection → SectionKind
  | PageSection.navbar _ _ => SectionKind.navbar
  | PageSection.hero => SectionKind.hero
  | PageSection.how => SectionKind.how
  | PageSection.pricing => SectionKind.pricing
  | PageSection.testimonials => SectionKind.testimonials
  | PageSection.cta => SectionKind.cta
  | PageSection.faq => SectionKind.faq
  | PageSection.footer _ _ => SectionKind.footer

/-- The rendered GPT page: the data-theme attribute of the wrapping div
and the ordered list of sections inside it. -/
structure RenderedPage where
  theme : String
  sections : List PageSection
deriving DecidableEq

/-- The GPT page component, translated from the JSX of
src/app/(apps)/gpt/page.tsx: a div themed by toolConfig.company.theme
containing Navbar, Hero, How, Pricing, Testimonials, CTA, FAQ and Footer
in that order, with the company, navbar and footer configurations drawn
from the static toolConfig object. -/
def Page (toolConfig : GptToolConfig) : RenderedPage :=
  { theme := toolConfig.company.theme
    sections :=
      [ PageSection.navbar toolConfig.company toolConfig.navbarLanding
      , PageSection.hero
      , PageSection.how
      , PageSection.pricing
      , PageSection.testimonials
      , PageSection.cta
      , PageSection.faq
      , PageSection.footer toolConfig.company toolConfig.footerLanding ] }

/-- The metadata object exported next to the page. -/
structure ExportedMetadata where
  title : String
  description : String
  ogImages : List String
  canonical : String
deriving DecidableEq

/-- The exported metadata of the GPT page, read only from the static
toolConfig object. -/
def gptMetadata (toolConfig : GptToolConfig) : ExportedMetadata :=
  { title := toolConfig.metadata.title
    description := toolConfig.metadata.description
    ogImages := [toolConfig.metadata.og_image]
    canonical := toolConfig.metadata.canonical }

/-- A concrete request body used to instantiate theorems. -/
def sampleBody : RequestBody :=
  { toolPath := "(apps)/gpt", email := "user@example.com", otherFields := "topic" }

/-- A concrete tool configuration with the paywall enabled. -/
def sampleConfig : ToolConfig :=
  { aiModel := "claude-3-5-sonnet-20240620"
    systemMessage := JsVal.str "You are a helpful assistant"
    toolPath := "gpt"
    paywall := JsVal.boolTrue
    credits := 1 }

/-- A concrete environment in which authentication passes and every
external call succeeds. -/
def sampleEnv : Env :=
  { auth := { status := 200, body := RespBody.raw "ok" }
    bodyJson := Except.ok sampleBody
    decodeURIComponent := fun s => Except.ok s
    importToolConfig := fun _ => Except.ok sampleConfig
    importSchema := fun _ => Except.ok [{ payload := "renderChart" }]
    importGeneratePrompt := fun _ => Except.ok (fun rb => Except.ok (JsVal.str rb.otherFields))
    invoke := fun _ _ _ _ _ => Except.ok "chart-data"
    uploadToSupabase := fun _ _ _ _ => Except.ok [{ slug := "gen-123" }]
    reduceUserCredits := fun _ _ => Except.ok () }

/-- An environment whose middleware response has status 401. -/
def env401 : Env :=
  { sampleEnv with auth := { status := 401, body := RespBody.raw "unauthorized" } }

/-- An environment whose middleware response has status 403. -/
def env403 : Env :=
  { sampleEnv with auth := { status := 403, body := RespBody.raw "forbidden" } }

/-- An environment identical to sampleEnv except that it authenticates a
second user, with a different middleware response. -/
def envUserB : Env :=
  { sampleEnv with auth := { status := 200, body := RespBody.raw "session-b" } }

/-- An environment in which parsing the request body throws. -/
def envParseErr : Env :=
  { sampleEnv with bodyJson := Except.error (Thrown.errorVal "Unexpected token") }

/-- An environment in which the credit decrement throws after the upload
has succeeded. -/
def envReduceErr : Env :=
  { sampleEnv with reduceUserCredits := fun _ _ => Except.error Thrown.nonErrorVal }

/-- The trace of the try block always begins with the body-parse attempt. -/
lemma tryBlock_head (env : Env) : (tryBlock env).1.head? = some Effect.bodyParse := by
  unfold tryBlock
  cases env.bodyJson <;> simp
  case ok rb =>
    cases env.decodeURIComponent rb.toolPath <;> simp
    case ok tp =>
      cases env.importToolConfig (toolConfigPath tp) <;> simp
      case ok tc =>
        cases env.importSchema (schemaPath tp) <;> simp
        case ok fs =>
          cases env.importGeneratePrompt (promptPath tp) <;> simp
          case ok gp =>
            cases gp rb <;> simp
            case ok pr =>
              cases env.invoke tc.aiModel 2000 fs.head? (jsString tc.systemMessage) (jsString pr) <;> simp
              case ok rd =>
                cases env.uploadToSupabase rb rd tc.toolPath tc.aiModel <;> simp
                case ok rows =>
                  by_cases hpw : jsStrictEqTrue tc.paywall
                  · simp only [hpw, if_true]
                    cases env.reduceUserCredits rb.email tc.credits <;> simp
                    next u =>
                      cases rows.head? <;> simp
                  · simp only [hpw, if_false]
                    cases rows.head? <;> simp

/-- When authentication does not return 401 the handler trace is exactly
the trace of the try block. -/
lemma POST_trace (env : Env) (h : env.auth.status ≠ 401) :
    (POST env).2 = (tryBlock env).1 := by
  unfold POST
  rw [if_neg h]
  rcases htb : tryBlock env with ⟨t, r⟩
  cases r <;> simp

/-- The strict-equality guard accepts exactly the boolean true. -/
lemma jsStrictEqTrue_eq_true_iff (v : JsVal) :
    jsStrictEqTrue v = true ↔ v = JsVal.boolTrue := by
  cases v <;> simp [jsStrictEqTrue]

/-- When authentication does not return 401 and the try block returns a
response, the handler returns that response. -/
lemma POST_result_ok (env : Env) (h : env.auth.status ≠ 401) (r : Response)
    (hr : (tryBlock env).2 = Except.ok r) : (POST env).1 = r := by
  unfold POST
  rw [if_neg h]
  rcases htb : tryBlock env with ⟨t, res⟩
  rw [htb] at hr
  simp only at hr
  subst hr
  simp

/-- When authentication does not return 401 and the try block throws, the
handler returns the 500 response built by the catch block. -/
lemma POST_result_error (env : Env) (h : env.auth.status ≠ 401) (e : Thrown)
    (he : (tryBlock env).2 = Except.error e) :
    (POST env).1 = { status := 500, body := RespBody.errorObj "Error" (thrownMessage e) } := by
  unfold POST
  rw [if_neg h]
  rcases htb : tryBlock env with ⟨t, res⟩
  rw [htb] at he
  simp only at he
  subst he
  simp

/-- Trace of the try block when every step through the upload succeeds:
the parse attempt, the three module loads, the invocation, the write and,
exactly when the paywall guard holds, the credit decrement, in that
order.  The trace does not depend on the outcome of the credit decrement
or on the uploaded rows. -/
lemma tryBlock_success_trace (env : Env) (rb : RequestBody) (tp : String)
    (tc : ToolConfig) (fs : List FunctionDef)
    (gp : RequestBody → Except Thrown JsVal) (pr : JsVal) (rd : String)
    (rows : List SupabaseRow)
    (hb : env.bodyJson = Except.ok rb)
    (hd : env.decodeURIComponent rb.toolPath = Except.ok tp)
    (hc : env.importToolConfig (toolConfigPath tp) = Except.ok tc)
    (hs : env.importSchema (schemaPath tp) = Except.ok fs)
    (hg : env.importGeneratePrompt (promptPath tp) = Except.ok gp)
    (hp : gp rb = Except.ok pr)
    (hi : env.invoke tc.aiModel 2000 fs.head? (jsString tc.systemMessage)
            (jsString pr) = Except.ok rd)
    (hu : env.uploadToSupabase rb rd tc.toolPath tc.aiModel = Except.ok rows) :
    (tryBlock env).1 =
      [Effect.bodyParse, Effect.moduleLoad (toolConfigPath tp),
       Effect.moduleLoad (schemaPath tp), Effect.moduleLoad (promptPath tp),
       Effect.modelInvoke tc.aiModel 2000 fs.head? (jsString tc.systemMessage) (jsString pr),
       Effect.dbWrite rb rd tc.toolPath tc.aiModel] ++
      (if jsStrictEqTrue tc.paywall then
        [Effect.creditDecrement rb.email tc.credits] else []) := by
  unfold tryBlock
  rw [hb]
  simp only
  rw [hd]
  simp only
  rw [hc]
  simp only
  rw [hs]
  simp only
  rw [hg]
  simp only
  rw [hp]
  simp only
  rw [hi]
  simp only
  rw [hu]
  simp only
  by_cases hpw : jsStrictEqTrue tc.paywall
  · rw [if_pos hpw, if_pos hpw]
    cases env.reduceUserCredits rb.email tc.credits <;> simp
    next => cases rows.head? <;> simp
  · rw [if_neg hpw, if_neg hpw]
    cases rows.head? <;> simp

/-- Result of the try block when every step succeeds, the paywalled
decrement (when taken) succeeds, and the upload returned at least one
row: the 200 response with the slug of the first row. -/
lemma tryBlock_success_result (env : Env) (rb : RequestBody) (tp : String)
    (tc : ToolConfig) (fs : List FunctionDef)
    (gp : RequestBody → Except Thrown JsVal) (pr : JsVal) (rd : String)
    (rows : List SupabaseRow) (row : SupabaseRow)
    (hb : env.bodyJson = Except.ok rb)
    (hd : env.decodeURIComponent rb.toolPath = Except.ok tp)
    (hc : env.importToolConfig (toolConfigPath tp) = Except.ok tc)
    (hs : env.importSchema (schemaPath tp) = Except.ok fs)
    (hg : env.importGeneratePrompt (promptPath tp) = Except.ok gp)
    (hp : gp rb = Except.ok pr)
    (hi : env.invoke tc.aiModel 2000 fs.head? (jsString tc.systemMessage)
            (jsString pr) = Except.ok rd)
    (hu : env.uploadToSupabase rb rd tc.toolPath tc.aiModel = Except.ok rows)
    (hred : jsStrictEqTrue tc.paywall = true →
      env.reduceUserCredits rb.email tc.credits = Except.ok ())
    (hrow : rows.head? = some row) :
    (tryBlock env).2 = Except.ok { status := 200, body := RespBody.slugObj row.slug } := by
  unfold tryBlock
  rw [hb]
  simp only
  rw [hd]
  simp only
  rw [hc]
  simp only
  rw [hs]
  simp only
  rw [hg]
  simp only
  rw [hp]
  simp only
  rw [hi]
  simp only
  rw [hu]
  simp only
  by_cases hpw : jsStrictEqTrue tc.paywall
  · rw [if_pos hpw, hred hpw]
    simp only
    rw [hrow]
  · rw [if_neg hpw, hrow]

/-- Trace of the try block once the prompt has been generated: the parse
attempt, the three loads and the invocation form a prefix, and whatever
follows contains no further module load. -/
lemma tryBlock_trace_after_prompt (env : Env) (rb : RequestBody) (tp : String)
    (tc : ToolConfig) (fs : List FunctionDef)
    (gp : RequestBody → Except Thrown JsVal) (pr : JsVal)
    (hb : env.bodyJson = Except.ok rb)
    (hd : env.decodeURIComponent rb.toolPath = Except.ok tp)
    (hc : env.importToolConfig (toolConfigPath tp) = Except.ok tc)
    (hs : env.importSchema (schemaPath tp) = Except.ok fs)
    (hg : env.importGeneratePrompt (promptPath tp) = Except.ok gp)
    (hp : gp rb = Except.ok pr) :
    ∃ rest, (tryBlock env).1 =
      [Effect.bodyParse, Effect.moduleLoad (toolConfigPath tp),
       Effect.moduleLoad (schemaPath tp), Effect.moduleLoad (promptPath tp),
       Effect.modelInvoke tc.aiModel 2000 fs.head? (jsString tc.systemMessage) (jsString pr)]
      ++ rest ∧ rest.countP isLoad = 0 := by
  unfold tryBlock
  rw [hb]
  simp only
  rw [hd]
  simp only
  rw [hc]
  simp only
  rw [hs]
  simp only
  rw [hg]
  simp only
  rw [hp]
  simp only
  cases env.invoke tc.aiModel 2000 fs.head? (jsString tc.systemMessage) (jsString pr) with
  | error e => exact ⟨[], by simp⟩
  | ok rd =>
    simp only
    cases env.uploadToSupabase rb rd tc.toolPath tc.aiModel with
    | error e =>
      exact ⟨[Effect.dbWrite rb rd tc.toolPath tc.aiModel], by simp [isLoad]⟩
    | ok rows =>
      simp only
      by_cases hpw : jsStrictEqTrue tc.paywall
      · rw [if_pos hpw]
        cases env.reduceUserCredits rb.email tc.credits with
        | error e =>
          exact ⟨[Effect.dbWrite rb rd tc.toolPath tc.aiModel,
                  Effect.creditDecrement rb.email tc.credits], by simp [isLoad]⟩
        | ok u =>
          cases rows.head? with
          | none =>
            exact ⟨[Effect.dbWrite rb rd tc.toolPath tc.aiModel,
                    Effect.creditDecrement rb.email tc.credits], by simp [isLoad]⟩
          | some row =>
            exact ⟨[Effect.dbWrite rb rd tc.toolPath tc.aiModel,
                    Effect.creditDecrement rb.email tc.credits], by simp [isLoad]⟩
      · rw [if_neg hpw]
        cases rows.head? with
        | none =>
          exact ⟨[Effect.dbWrite rb rd tc.toolPath tc.aiModel], by simp [isLoad]⟩
        | some row =>
          exact ⟨[Effect.dbWrite rb rd tc.toolPath tc.aiModel], by simp [isLoad]⟩

/-- The try block throws when, after a successful upload, either the
paywalled credit decrement throws or the uploaded array is empty. -/
lemma tryBlock_late_throw (env : Env) (rb : RequestBody) (tp : String)
    (tc : ToolConfig) (fs : List FunctionDef)
    (gp : RequestBody → Except Thrown JsVal) (pr : JsVal) (rd : String)
    (rows : List SupabaseRow)
    (hb : env.bodyJson = Except.ok rb)
    (hd : env.decodeURIComponent rb.toolPath = Except.ok tp)
    (hc : env.importToolConfig (toolConfigPath tp) = Except.ok tc)
    (hs : env.importSchema (schemaPath tp) = Except.ok fs)
    (hg : env.importGeneratePrompt (promptPath tp) = Except.ok gp)
    (hp : gp rb = Except.ok pr)
    (hi : env.invoke tc.aiModel 2000 fs.head? (jsString tc.systemMessage)
            (jsString pr) = Except.ok rd)
    (hu : env.uploadToSupabase rb rd tc.toolPath tc.aiModel = Except.ok rows)
    (hlater : (tc.paywall = JsVal.boolTrue ∧
        ∃ e, env.reduceUserCredits rb.email tc.credits = Except.error e) ∨
      rows.head? = none) :
    ∃ e, (tryBlock env).2 = Except.error e := by
  unfold tryBlock
  rw [hb]
  simp only
  rw [hd]
  simp only
  rw [hc]
  simp only
  rw [hs]
  simp only
  rw [hg]
  simp only
  rw [hp]
  simp only
  rw [hi]
  simp only
  rw [hu]
  simp only
  rcases hlater with ⟨hpw, e, hrede⟩ | hrow
  · rw [if_pos ((jsStrictEqTrue_eq_true_iff tc.paywall).2 hpw), hrede]
    exact ⟨e, rfl⟩
  · by_cases hpw : jsStrictEqTrue tc.paywall
    · rw [if_pos hpw]
      cases env.reduceUserCredits rb.email tc.credits with
      | error e => exact ⟨e, rfl⟩
      | ok u =>
        simp only
        rw [hrow]
        exact ⟨slugAccessError, rfl⟩
    · rw [if_neg hpw, hrow]
      exact ⟨slugAccessError, rfl⟩

/-- Classification of the try block for an arbitrary environment: its
trace never contains more than one invocation or more than one write,
and whenever it returns a response, that response has status 200, the
trace contains exactly one invocation and one write, and the body is the
slug of the first row of a successful upload. -/
lemma tryBlock_master (env : Env) :
    ((tryBlock env).1.countP isInvoke ≤ 1 ∧ (tryBlock env).1.countP isWrite ≤ 1) ∧
    ∀ r, (tryBlock env).2 = Except.ok r →
      (tryBlock env).1.countP isInvoke = 1 ∧ (tryBlock env).1.countP isWrite = 1 ∧
      r.status = 200 ∧
      ∃ rb rd tp am rows row,
        env.uploadToSupabase rb rd tp am = Except.ok rows ∧
        rows.head? = some row ∧ r.body = RespBody.slugObj row.slug := by
  unfold tryBlock
  cases env.bodyJson with
  | error e => simp [List.countP_cons, isInvoke, isWrite]
  | ok rb =>
  simp only
  cases env.decodeURIComponent rb.toolPath with
  | error e => simp [List.countP_cons, isInvoke, isWrite]
  | ok tp =>
  simp only
  cases env.importToolConfig (toolConfigPath tp) with
  | error e => simp [List.countP_cons, isInvoke, isWrite]
  | ok tc =>
  simp only
  cases env.importSchema (schemaPath tp) with
  | error e => simp [List.countP_cons, isInvoke, isWrite]
  | ok fs =>
  simp only
  cases env.importGeneratePrompt (promptPath tp) with
  | error e => simp [List.countP_cons, isInvoke, isWrite]
  | ok gp =>
  simp only
  cases gp rb with
  | error e => simp [List.countP_cons, isInvoke, isWrite]
  | ok pr =>
  simp only
  cases env.invoke tc.aiModel 2000 fs.head? (jsString tc.systemMessage) (jsString pr) with
  | error e => simp [List.countP_cons, isInvoke, isWrite]
  | ok rd =>
  simp only
  cases hu : env.uploadToSupabase rb rd tc.toolPath tc.aiModel with
  | error e => simp [List.countP_cons, isInvoke, isWrite]
  | ok rows =>
  simp only
  by_cases hpw : jsStrictEqTrue tc.paywall
  · rw [if_pos hpw]
    cases env.reduceUserCredits rb.email tc.credits with
    | error e => simp [List.countP_cons, isInvoke, isWrite]
    | ok u =>
    simp only
    cases hrow : rows.head? with
    | none => simp [List.countP_cons, isInvoke, isWrite]
    | some row =>
      refine ⟨by simp [List.countP_cons, isInvoke, isWrite], ?_⟩
      intro r hr
      simp only [Except.ok.injEq] at hr
      subst hr
      exact ⟨by simp [List.countP_cons, isInvoke, isWrite],
        by simp [List.countP_cons, isInvoke, isWrite], rfl,
        rb, rd, tc.toolPath, tc.aiModel, rows, row, hu, hrow, rfl⟩
  · rw [if_neg hpw]
    cases hrow : rows.head? with
    | none => simp [List.countP_cons, isInvoke, isWrite]
    | some row =>
      refine ⟨by simp [List.countP_cons, isInvoke, isWrite], ?_⟩
      intro r hr
      simp only [Except.ok.injEq] at hr
      subst hr
      exact ⟨by simp [List.countP_cons, isInvoke, isWrite],
        by simp [List.countP_cons, isInvoke, isWrite], rfl,
        rb, rd, tc.toolPath, tc.aiModel, rows, row, hu, hrow, rfl⟩

/-- C1: when the middleware response has status 401 the POST handler
returns that response unchanged and performs no later effect: the trace
is empty, so there is no body parse, no module load, no model
invocation, no database write and no credit decrement. -/
theorem c1_auth_401_short_circuits (env : Env) (h : env.auth.status = 401) :
    POST env = (env.auth, []) := by
  unfold POST
  rw [if_pos h]

/-- Witness for C1 at the concrete environment env401. -/
theorem c1_auth_401_short_circuits_witness :
    env401.auth.status = 401 ∧ POST env401 = (env401.auth, []) :=
  ⟨rfl, c1_auth_401_short_circuits env401 rfl⟩

/-- C3: for every request that passes authentication, if any step of the
try block throws, the handler returns status 500 with the JSON body
whose status text is Error and whose message is the thrown message:
error.message for an Error instance and the fixed fallback string
otherwise; the thrown value never escapes the handler. -/
theorem c3_catch_returns_500 (env : Env) (e : Thrown)
    (ha : env.auth.status ≠ 401)
    (hthrow : (tryBlock env).2 = Except.error e) :
    (POST env).1 = { status := 500, body := RespBody.errorObj "Error" (thrownMessage e) } ∧
    (∀ m, thrownMessage (Thrown.errorVal m) = m) ∧
    thrownMessage Thrown.nonErrorVal = "An unknown error occurred" :=
  ⟨POST_result_error env ha e hthrow, fun _ => rfl, rfl⟩

/-- Witness for C3 at a concrete environment whose body parse throws an
Error instance. -/
theorem c3_catch_returns_500_witness :
    envParseErr.auth.status ≠ 401 ∧
    (tryBlock envParseErr).2 = Except.error (Thrown.errorVal "Unexpected token") ∧
    (POST envParseErr).1 =
      { status := 500
        body := RespBody.errorObj "Error" (thrownMessage (Thrown.errorVal "Unexpected token")) } :=
  ⟨by decide, rfl,
   (c3_catch_returns_500 envParseErr (Thrown.errorVal "Unexpected token") (by decide) rfl).1⟩

/-- C9: only a middleware response with status exactly 401 short-circuits
the handler.  For any other middleware status the response is ignored:
two environments that agree on everything except the middleware response
produce identical results, the body parse is attempted, the three module
loads happen and the model is invoked. -/
theorem c9_only_401_short_circuits (env1 env2 : Env) (rb : RequestBody)
    (tp : String) (tc : ToolConfig) (fs : List FunctionDef)
    (gp : RequestBody → Except Thrown JsVal) (pr : JsVal)
    (ha1 : env1.auth.status ≠ 401) (ha2 : env2.auth.status ≠ 401)
    (hf1 : env1.bodyJson = env2.bodyJson)
    (hf2 : env1.decodeURIComponent = env2.decodeURIComponent)
    (hf3 : env1.importToolConfig = env2.importToolConfig)
    (hf4 : env1.importSchema = env2.importSchema)
    (hf5 : env1.importGeneratePrompt = env2.importGeneratePrompt)
    (hf6 : env1.invoke = env2.invoke)
    (hf7 : env1.uploadToSupabase = env2.uploadToSupabase)
    (hf8 : env1.reduceUserCredits = env2.reduceUserCredits)
    (hb : env1.bodyJson = Except.ok rb)
    (hd : env1.decodeURIComponent rb.toolPath = Except.ok tp)
    (hc : env1.importToolConfig (toolConfigPath tp) = Except.ok tc)
    (hs : env1.importSchema (schemaPath tp) = Except.ok fs)
    (hg : env1.importGeneratePrompt (promptPath tp) = Except.ok gp)
    (hp : gp rb = Except.ok pr) :
    POST env1 = POST env2 ∧
    Effect.bodyParse ∈ (POST env1).2 ∧
    Effect.moduleLoad (toolConfigPath tp) ∈ (POST env1).2 ∧
    Effect.moduleLoad (schemaPath tp) ∈ (POST env1).2 ∧
    Effect.moduleLoad (promptPath tp) ∈ (POST env1).2 ∧
    Effect.modelInvoke tc.aiModel 2000 fs.head? (jsString tc.systemMessage) (jsString pr)
      ∈ (POST env1).2 := by
  have htb : tryBlock env1 = tryBlock env2 := by
    unfold tryBlock
    rw [hf1, hf2, hf3, hf4, hf5, hf6, hf7, hf8]
  obtain ⟨rest, hrest, -⟩ :=
    tryBlock_trace_after_prompt env1 rb tp tc fs gp pr hb hd hc hs hg hp
  refine ⟨?_, ?_, ?_, ?_, ?_, ?_⟩
  · unfold POST
    rw [if_neg ha1, if_neg ha2, htb]
  all_goals rw [POST_trace env1 ha1, hrest]; simp

/-- Witness for C9 with a middleware response of status 403 against the
all-success environment. -/
theorem c9_only_401_short_circuits_witness :
    env403.auth.status ≠ 401 ∧ sampleEnv.auth.status ≠ 401 ∧
    (POST env403 = POST sampleEnv ∧
     Effect.bodyParse ∈ (POST env403).2 ∧
     Effect.moduleLoad (toolConfigPath "(apps)/gpt") ∈ (POST env403).2 ∧
     Effect.moduleLoad (schemaPath "(apps)/gpt") ∈ (POST env403).2 ∧
     Effect.moduleLoad (promptPath "(apps)/gpt") ∈ (POST env403).2 ∧
     Effect.modelInvoke sampleConfig.aiModel 2000
       ([{ payload := "renderChart" }] : List FunctionDef).head?
       (jsString sampleConfig.systemMessage) (jsString (JsVal.str "topic"))
       ∈ (POST env403).2) :=
  ⟨by decide, by decide,
   c9_only_401_short_circuits env403 sampleEnv sampleBody "(apps)/gpt" sampleConfig
     [{ payload := "renderChart" }] (fun rb => Except.ok (JsVal.str rb.otherFields))
     (JsVal.str "topic") (by decide) (by decide)
     rfl rfl rfl rfl rfl rfl rfl rfl rfl rfl rfl rfl rfl rfl⟩

/-- C2: in a run that passes authentication and in which the model
invocation and the upload succeed, a credit decrement happens exactly
when toolConfig.paywall is the boolean true under strict equality, and
when it happens it is reduceUserCredits(requestBody.email,
toolConfig.credits); for any other paywall value (absent, false, or
truthy but not the boolean true) no decrement occurs. -/
theorem c2_paywall_gate (env : Env) (rb : RequestBody) (tp : String)
    (tc : ToolConfig) (fs : List FunctionDef)
    (gp : RequestBody → Except Thrown JsVal) (pr : JsVal) (rd : String)
    (rows : List SupabaseRow)
    (ha : env.auth.status ≠ 401)
    (hb : env.bodyJson = Except.ok rb)
    (hd : env.decodeURIComponent rb.toolPath = Except.ok tp)
    (hc : env.importToolConfig (toolConfigPath tp) = Except.ok tc)
    (hs : env.importSchema (schemaPath tp) = Except.ok fs)
    (hg : env.importGeneratePrompt (promptPath tp) = Except.ok gp)
    (hp : gp rb = Except.ok pr)
    (hi : env.invoke tc.aiModel 2000 fs.head? (jsString tc.systemMessage)
            (jsString pr) = Except.ok rd)
    (hu : env.uploadToSupabase rb rd tc.toolPath tc.aiModel = Except.ok rows) :
    ((∃ email credits, Effect.creditDecrement email credits ∈ (POST env).2) ↔
      tc.paywall = JsVal.boolTrue) ∧
    (tc.paywall = JsVal.boolTrue →
      Effect.creditDecrement rb.email tc.credits ∈ (POST env).2) := by
  rw [POST_trace env ha,
    tryBlock_success_trace env rb tp tc fs gp pr rd rows hb hd hc hs hg hp hi hu]
  constructor
  · constructor
    · rintro ⟨em, cr, hmem⟩
      by_cases hpw : jsStrictEqTrue tc.paywall
      · exact (jsStrictEqTrue_eq_true_iff tc.paywall).1 hpw
      · rw [if_neg hpw] at hmem
        simp at hmem
    · intro hpw
      rw [if_pos ((jsStrictEqTrue_eq_true_iff tc.paywall).2 hpw)]
      exact ⟨rb.email, tc.credits, by simp⟩
  · intro hpw
    rw [if_pos ((jsStrictEqTrue_eq_true_iff tc.paywall).2 hpw)]
    simp

/-- Witness for C2 at the all-success environment, whose tool
configuration has paywall set to the boolean true. -/
theorem c2_paywall_gate_witness :
    sampleEnv.auth.status ≠ 401 ∧ sampleConfig.paywall = JsVal.boolTrue ∧
    ((∃ email credits, Effect.creditDecrement email credits ∈ (POST sampleEnv).2) ↔
      sampleConfig.paywall = JsVal.boolTrue) ∧
    Effect.creditDecrement sampleBody.email sampleConfig.credits ∈ (POST sampleEnv).2 :=
  ⟨by decide, rfl,
   (c2_paywall_gate sampleEnv sampleBody "(apps)/gpt" sampleConfig
     [{ payload := "renderChart" }] (fun rb => Except.ok (JsVal.str rb.otherFields))
     (JsVal.str "topic") "chart-data" [{ slug := "gen-123" }]
     (by decide) rfl rfl rfl rfl rfl rfl rfl rfl).1,
   (c2_paywall_gate sampleEnv sampleBody "(apps)/gpt" sampleConfig
     [{ payload := "renderChart" }] (fun rb => Except.ok (JsVal.str rb.otherFields))
     (JsVal.str "topic") "chart-data" [{ slug := "gen-123" }]
     (by decide) rfl rfl rfl rfl rfl rfl rfl rfl).2 rfl⟩

/-- C4: in every successful execution the external effects occur in
exactly this order: the body parse, the three module loads, the model
invocation, the database write and, only when paywalled, the credit
decrement; the trace is exactly that list, so no write precedes the
invocation and no decrement precedes the write, and the handler returns
status 200. -/
theorem c4_effect_order (env : Env) (rb : RequestBody) (tp : String)
    (tc : ToolConfig) (fs : List FunctionDef)
    (gp : RequestBody → Except Thrown JsVal) (pr : JsVal) (rd : String)
    (rows : List SupabaseRow) (row : SupabaseRow)
    (ha : env.auth.status ≠ 401)
    (hb : env.bodyJson = Except.ok rb)
    (hd : env.decodeURIComponent rb.toolPath = Except.ok tp)
    (hc : env.importToolConfig (toolConfigPath tp) = Except.ok tc)
    (hs : env.importSchema (schemaPath tp) = Except.ok fs)
    (hg : env.importGeneratePrompt (promptPath tp) = Except.ok gp)
    (hp : gp rb = Except.ok pr)
    (hi : env.invoke tc.aiModel 2000 fs.head? (jsString tc.systemMessage)
            (jsString pr) = Except.ok rd)
    (hu : env.uploadToSupabase rb rd tc.toolPath tc.aiModel = Except.ok rows)
    (hred : tc.paywall = JsVal.boolTrue →
      env.reduceUserCredits rb.email tc.credits = Except.ok ())
    (hrow : rows.head? = some row) :
    (POST env).1.status = 200 ∧
    (POST env).2 =
      [Effect.bodyParse, Effect.moduleLoad (toolConfigPath tp),
       Effect.moduleLoad (schemaPath tp), Effect.moduleLoad (promptPath tp),
       Effect.modelInvoke tc.aiModel 2000 fs.head? (jsString tc.systemMessage) (jsString pr),
       Effect.dbWrite rb rd tc.toolPath tc.aiModel] ++
      (if tc.paywall = JsVal.boolTrue then
        [Effect.creditDecrement rb.email tc.credits] else []) := by
  have hred2 : jsStrictEqTrue tc.paywall = true →
      env.reduceUserCredits rb.email tc.credits = Except.ok () :=
    fun h => hred ((jsStrictEqTrue_eq_true_iff tc.paywall).1 h)
  constructor
  · rw [POST_result_ok env ha _ (tryBlock_success_result env rb tp tc fs gp pr rd rows row
      hb hd hc hs hg hp hi hu hred2 hrow)]
  · rw [POST_trace env ha,
      tryBlock_success_trace env rb tp tc fs gp pr rd rows hb hd hc hs hg hp hi hu]
    by_cases hpw : tc.paywall = JsVal.boolTrue
    · rw [if_pos hpw, if_pos ((jsStrictEqTrue_eq_true_iff tc.paywall).2 hpw)]
    · rw [if_neg hpw,
        if_neg (fun hb2 => hpw ((jsStrictEqTrue_eq_true_iff tc.paywall).1 hb2))]

/-- Witness for C4 at the all-success paywalled environment. -/
theorem c4_effect_order_witness :
    sampleEnv.auth.status ≠ 401 ∧
    (POST sampleEnv).1.status = 200 ∧
    (POST sampleEnv).2 =
      [Effect.bodyParse, Effect.moduleLoad (toolConfigPath "(apps)/gpt"),
       Effect.moduleLoad (schemaPath "(apps)/gpt"), Effect.moduleLoad (promptPath "(apps)/gpt"),
       Effect.modelInvoke sampleConfig.aiModel 2000
         ([{ payload := "renderChart" }] : List FunctionDef).head?
         (jsString sampleConfig.systemMessage) (jsString (JsVal.str "topic")),
       Effect.dbWrite sampleBody "chart-data" sampleConfig.toolPath sampleConfig.aiModel] ++
      (if sampleConfig.paywall = JsVal.boolTrue then
        [Effect.creditDecrement sampleBody.email sampleConfig.credits] else []) :=
  ⟨by decide,
   (c4_effect_order sampleEnv sampleBody "(apps)/gpt" sampleConfig
     [{ payload := "renderChart" }] (fun rb => Except.ok (JsVal.str rb.otherFields))
     (JsVal.str "topic") "chart-data" [{ slug := "gen-123" }] { slug := "gen-123" }
     (by decide) rfl rfl rfl rfl rfl rfl rfl rfl (fun _ => rfl) rfl).1,
   (c4_effect_order sampleEnv sampleBody "(apps)/gpt" sampleConfig
     [{ payload := "renderChart" }] (fun rb => Except.ok (JsVal.str rb.otherFields))
     (JsVal.str "topic") "chart-data" [{ slug := "gen-123" }] { slug := "gen-123" }
     (by decide) rfl rfl rfl rfl rfl rfl rfl rfl (fun _ => rfl) rfl).2⟩

/-- C5: the handler derives the module path by decoding
requestBody.toolPath, loads exactly the three per-tool modules from that
path, and invokes the model with structured output bound to
functionSchema[0], system message String(toolConfig.systemMessage),
human message String(generatePrompt(requestBody)), model
toolConfig.aiModel and a 2000 max-token limit: the trace starts with the
parse, the three loads in order, and that invocation, and it contains no
other module load. -/
theorem c5_dynamic_loading_and_invocation (env : Env) (rb : RequestBody)
    (tp : String) (tc : ToolConfig) (fs : List FunctionDef)
    (gp : RequestBody → Except Thrown JsVal) (pr : JsVal)
    (ha : env.auth.status ≠ 401)
    (hb : env.bodyJson = Except.ok rb)
    (hd : env.decodeURIComponent rb.toolPath = Except.ok tp)
    (hc : env.importToolConfig (toolConfigPath tp) = Except.ok tc)
    (hs : env.importSchema (schemaPath tp) = Except.ok fs)
    (hg : env.importGeneratePrompt (promptPath tp) = Except.ok gp)
    (hp : gp rb = Except.ok pr) :
    (∃ rest, (POST env).2 =
      [Effect.bodyParse, Effect.moduleLoad (toolConfigPath tp),
       Effect.moduleLoad (schemaPath tp), Effect.moduleLoad (promptPath tp),
       Effect.modelInvoke tc.aiModel 2000 fs.head? (jsString tc.systemMessage) (jsString pr)]
      ++ rest) ∧
    (POST env).2.countP isLoad = 3 := by
  obtain ⟨rest, hrest, hcount⟩ :=
    tryBlock_trace_after_prompt env rb tp tc fs gp pr hb hd hc hs hg hp
  rw [POST_trace env ha, hrest]
  refine ⟨⟨rest, rfl⟩, ?_⟩
  simp [List.countP_append, List.countP_cons, isLoad, hcount]

/-- Witness for C5 at the all-success environment. -/
theorem c5_dynamic_loading_and_invocation_witness :
    sampleEnv.auth.status ≠ 401 ∧
    sampleEnv.decodeURIComponent sampleBody.toolPath = Except.ok "(apps)/gpt" ∧
    (∃ rest, (POST sampleEnv).2 =
      [Effect.bodyParse, Effect.moduleLoad (toolConfigPath "(apps)/gpt"),
       Effect.moduleLoad (schemaPath "(apps)/gpt"), Effect.moduleLoad (promptPath "(apps)/gpt"),
       Effect.modelInvoke sampleConfig.aiModel 2000
         ([{ payload := "renderChart" }] : List FunctionDef).head?
         (jsString sampleConfig.systemMessage) (jsString (JsVal.str "topic"))] ++ rest) ∧
    (POST sampleEnv).2.countP isLoad = 3 :=
  ⟨by decide, rfl,
   (c5_dynamic_loading_and_invocation sampleEnv sampleBody "(apps)/gpt" sampleConfig
     [{ payload := "renderChart" }] (fun rb => Except.ok (JsVal.str rb.otherFields))
     (JsVal.str "topic") (by decide) rfl rfl rfl rfl rfl rfl).1,
   (c5_dynamic_loading_and_invocation sampleEnv sampleBody "(apps)/gpt" sampleConfig
     [{ payload := "renderChart" }] (fun rb => Except.ok (JsVal.str rb.otherFields))
     (JsVal.str "topic") (by decide) rfl rfl rfl rfl rfl rfl).2⟩

/-- C6: every request performs at most one model invocation and at most
one database write; every request answered with status 200 performed
exactly one of each, and its body is the slug object built from the slug
of the first element of the array returned by the upload. -/
theorem c6_single_invoke_single_write (env : Env) :
    ((POST env).2.countP isInvoke ≤ 1 ∧ (POST env).2.countP isWrite ≤ 1) ∧
    ((POST env).1.status = 200 →
      (POST env).2.countP isInvoke = 1 ∧ (POST env).2.countP isWrite = 1 ∧
      ∃ rb rd tp am rows row,
        env.uploadToSupabase rb rd tp am = Except.ok rows ∧
        rows.head? = some row ∧
        (POST env).1.body = RespBody.slugObj row.slug) := by
  by_cases ha : env.auth.status = 401
  · have hpost : POST env = (env.auth, []) := by
      unfold POST
      rw [if_pos ha]
    rw [hpost]
    refine ⟨⟨by simp, by simp⟩, ?_⟩
    intro h200
    simp only at h200
    omega
  · have hm := tryBlock_master env
    rw [POST_trace env ha]
    refine ⟨hm.1, ?_⟩
    intro h200
    rcases hres : (tryBlock env).2 with e | r
    · have h500 := POST_result_error env ha e hres
      rw [h500] at h200
      simp at h200
    · have hr := hm.2 r hres
      have hpr : (POST env).1 = r := POST_result_ok env ha r hres
      rw [hpr]
      exact ⟨hr.1, hr.2.1, hr.2.2.2⟩

/-- Witness for C6 at the all-success environment, discharging the
status-200 hypothesis of the second half. -/
theorem c6_single_invoke_single_write_witness :
    (POST sampleEnv).1.status = 200 ∧
    ((POST sampleEnv).2.countP isInvoke ≤ 1 ∧ (POST sampleEnv).2.countP isWrite ≤ 1) ∧
    ((POST sampleEnv).2.countP isInvoke = 1 ∧ (POST sampleEnv).2.countP isWrite = 1 ∧
     ∃ rb rd tp am rows row,
       sampleEnv.uploadToSupabase rb rd tp am = Except.ok rows ∧
       rows.head? = some row ∧
       (POST sampleEnv).1.body = RespBody.slugObj row.slug) :=
  ⟨rfl, (c6_single_invoke_single_write sampleEnv).1,
   (c6_single_invoke_single_write sampleEnv).2 rfl⟩

/-- C7: the GPT page is a pure rendering component, modelled as a
function of the static toolConfig object alone: its theme is the company
theme, its section sequence is the fixed composition navbar, hero, how,
pricing, testimonials, cta, faq, footer, the navbar and footer receive
the company, navbar and footer configurations of the toolConfig object,
and the exported metadata is read only from toolConfig.metadata.  Being
a plain function, the embedding performs no effect. -/
theorem c7_gpt_page_pure_composition (cfg : GptToolConfig) :
    (Page cfg).theme = cfg.company.theme ∧
    (Page cfg).sections.map sectionKind =
      [SectionKind.navbar, SectionKind.hero, SectionKind.how, SectionKind.pricing,
       SectionKind.testimonials, SectionKind.cta, SectionKind.faq, SectionKind.footer] ∧
    (Page cfg).sections.head? = some (PageSection.navbar cfg.company cfg.navbarLanding) ∧
    (Page cfg).sections.getLast? = some (PageSection.footer cfg.company cfg.footerLanding) ∧
    PageSection.hero ∈ (Page cfg).sections ∧
    PageSection.pricing ∈ (Page cfg).sections ∧
    PageSection.faq ∈ (Page cfg).sections ∧
    gptMetadata cfg =
      { title := cfg.metadata.title
        description := cfg.metadata.description
        ogImages := [cfg.metadata.og_image]
        canonical := cfg.metadata.canonical } := by
  refine ⟨rfl, rfl, rfl, rfl, ?_, ?_, ?_, rfl⟩
  · simp [Page]
  · simp [Page]
  · simp [Page]

/-- C8: the handler is not atomic on error: when the upload has
succeeded and a later step throws, either because the paywalled credit
decrement throws or because the uploaded array is empty so reading the
slug of its first element throws, the handler answers with status 500
while the database-write effect remains in the trace, and no
compensating effect exists in the model. -/
theorem c8_no_rollback_after_upload (env : Env) (rb : RequestBody) (tp : String)
    (tc : ToolConfig) (fs : List FunctionDef)
    (gp : RequestBody → Except Thrown JsVal) (pr : JsVal) (rd : String)
    (rows : List SupabaseRow)
    (ha : env.auth.status ≠ 401)
    (hb : env.bodyJson = Except.ok rb)
    (hd : env.decodeURIComponent rb.toolPath = Except.ok tp)
    (hc : env.importToolConfig (toolConfigPath tp) = Except.ok tc)
    (hs : env.importSchema (schemaPath tp) = Except.ok fs)
    (hg : env.importGeneratePrompt (promptPath tp) = Except.ok gp)
    (hp : gp rb = Except.ok pr)
    (hi : env.invoke tc.aiModel 2000 fs.head? (jsString tc.systemMessage)
            (jsString pr) = Except.ok rd)
    (hu : env.uploadToSupabase rb rd tc.toolPath tc.aiModel = Except.ok rows)
    (hlater : (tc.paywall = JsVal.boolTrue ∧
        ∃ e, env.reduceUserCredits rb.email tc.credits = Except.error e) ∨
      rows.head? = none) :
    (POST env).1.status = 500 ∧
    Effect.dbWrite rb rd tc.toolPath tc.aiModel ∈ (POST env).2 := by
  obtain ⟨e, he⟩ :=
    tryBlock_late_throw env rb tp tc fs gp pr rd rows hb hd hc hs hg hp hi hu hlater
  constructor
  · rw [POST_result_error env ha e he]
  · rw [POST_trace env ha,
      tryBlock_success_trace env rb tp tc fs gp pr rd rows hb hd hc hs hg hp hi hu]
    simp

/-- Witness for C8 at a concrete environment whose credit decrement
throws after a successful upload. -/
theorem c8_no_rollback_after_upload_witness :
    envReduceErr.auth.status ≠ 401 ∧
    sampleConfig.paywall = JsVal.boolTrue ∧
    envReduceErr.reduceUserCredits sampleBody.email sampleConfig.credits =
      Except.error Thrown.nonErrorVal ∧
    (POST envReduceErr).1.status = 500 ∧
    Effect.dbWrite sampleBody "chart-data" sampleConfig.toolPath sampleConfig.aiModel
      ∈ (POST envReduceErr).2 :=
  ⟨by decide, rfl, rfl,
   (c8_no_rollback_after_upload envReduceErr sampleBody "(apps)/gpt" sampleConfig
     [{ payload := "renderChart" }] (fun rb => Except.ok (JsVal.str rb.otherFields))
     (JsVal.str "topic") "chart-data" [{ slug := "gen-123" }]
     (by decide) rfl rfl rfl rfl rfl rfl rfl rfl
     (Or.inl ⟨rfl, Thrown.nonErrorVal, rfl⟩)).1,
   (c8_no_rollback_after_upload envReduceErr sampleBody "(apps)/gpt" sampleConfig
     [{ payload := "renderChart" }] (fun rb => Except.ok (JsVal.str rb.otherFields))
     (JsVal.str "topic") "chart-data" [{ slug := "gen-123" }]
     (by decide) rfl rfl rfl rfl rfl rfl rfl rfl
     (Or.inl ⟨rfl, Thrown.nonErrorVal, rfl⟩)).2⟩

/-- C10: the account charged by the paywall is determined solely by the
client-supplied request body and the tool configuration, not by the
authenticated identity: two environments that agree on everything except
the middleware response, both passing authentication, record the credit
decrement with the same requestBody.email and the same toolConfig.credits,
and indeed produce identical effect traces. -/
theorem c10_charge_determined_by_body (env1 env2 : Env) (rb : RequestBody)
    (tp : String) (tc : ToolConfig) (fs : List FunctionDef)
    (gp : RequestBody → Except Thrown JsVal) (pr : JsVal) (rd : String)
    (rows : List SupabaseRow)
    (ha1 : env1.auth.status ≠ 401) (ha2 : env2.auth.status ≠ 401)
    (hf1 : env1.bodyJson = env2.bodyJson)
    (hf2 : env1.decodeURIComponent = env2.decodeURIComponent)
    (hf3 : env1.importToolConfig = env2.importToolConfig)
    (hf4 : env1.importSchema = env2.importSchema)
    (hf5 : env1.importGeneratePrompt = env2.importGeneratePrompt)
    (hf6 : env1.invoke = env2.invoke)
    (hf7 : env1.uploadToSupabase = env2.uploadToSupabase)
    (hf8 : env1.reduceUserCredits = env2.reduceUserCredits)
    (hb : env1.bodyJson = Except.ok rb)
    (hd : env1.decodeURIComponent rb.toolPath = Except.ok tp)
    (hc : env1.importToolConfig (toolConfigPath tp) = Except.ok tc)
    (hs : env1.importSchema (schemaPath tp) = Except.ok fs)
    (hg : env1.importGeneratePrompt (promptPath tp) = Except.ok gp)
    (hp : gp rb = Except.ok pr)
    (hi : env1.invoke tc.aiModel 2000 fs.head? (jsString tc.systemMessage)
            (jsString pr) = Except.ok rd)
    (hu : env1.uploadToSupabase rb rd tc.toolPath tc.aiModel = Except.ok rows)
    (hpw : tc.paywall = JsVal.boolTrue) :
    Effect.creditDecrement rb.email tc.credits ∈ (POST env1).2 ∧
    (POST env1).2 = (POST env2).2 := by
  have htb : tryBlock env1 = tryBlock env2 := by
    unfold tryBlock
    rw [hf1, hf2, hf3, hf4, hf5, hf6, hf7, hf8]
  constructor
  · rw [POST_trace env1 ha1,
      tryBlock_success_trace env1 rb tp tc fs gp pr rd rows hb hd hc hs hg hp hi hu,
      if_pos ((jsStrictEqTrue_eq_true_iff tc.paywall).2 hpw)]
    simp
  · rw [POST_trace env1 ha1, POST_trace env2 ha2, htb]

/-- Witness for C10 with two different authenticated sessions over the
same request body. -/
theorem c10_charge_determined_by_body_witness :
    sampleEnv.auth.status ≠ 401 ∧ envUserB.auth.status ≠ 401 ∧
    sampleEnv.auth ≠ envUserB.auth ∧
    sampleConfig.paywall = JsVal.boolTrue ∧
    Effect.creditDecrement sampleBody.email sampleConfig.credits ∈ (POST sampleEnv).2 ∧
    (POST sampleEnv).2 = (POST envUserB).2 :=
  ⟨by decide, by decide, by decide, rfl,
   (c10_charge_determined_by_body sampleEnv envUserB sampleBody "(apps)/gpt" sampleConfig
     [{ payload := "renderChart" }] (fun rb => Except.ok (JsVal.str rb.otherFields))
     (JsVal.str "topic") "chart-data" [{ slug := "gen-123" }]
     (by decide) (by decide) rfl rfl rfl rfl rfl rfl rfl rfl
     rfl rfl rfl rfl rfl rfl rfl rfl rfl).1,
   (c10_charge_determined_by_body sampleEnv envUserB sampleBody "(apps)/gpt" sampleConfig
     [{ payload := "renderChart" }] (fun rb => Except.ok (JsVal.str rb.otherFields))
     (JsVal.str "topic") "chart-data" [{ slug := "gen-123" }]
     (by decide) (by decide) rfl rfl rfl rfl rfl rfl rfl rfl
     rfl rfl rfl rfl rfl rfl rfl rfl rfl).2⟩

end ChartGpt
